import Mathlib

/-!
Shallow embedding of the follow-up orchestration core of the ai-lead-recovery
backend (src/backend/server.js): the reply-ingestion intent update and dispatch
logic (checkEmailReplies / checkGmailReplies), the deterministic skeleton of the
response generator (generateAIResponse), the follow-up cadence scheduler
(processFollowUps), the A/B variant logic (generateFollowUpEmail), and the
sequence step scheduler (processSequenceSteps).

Conventions of the embedding:
* Timestamps are integer milliseconds (JavaScript Date.now values); elapsed-time
  comparisons are carried out over the integers, which agrees with the float
  comparisons of the source for all realistic magnitudes.
* JavaScript fields that may be undefined or null are Option values; reads of
  the form (x || 0) are modelled by a plain Nat field.
* External calls (the LLM classifier and generator, the email transport) are
  abstracted by their results, passed in as parameters.
-/

namespace LeadRecovery

/-- Intent labels of the classifier. analyzeReplyWithAI (server.js 4237-4335)
always returns one of these five strings, falling back to GHOSTING. -/
inductive Intent
  | INTERESTED
  | NOT_NOW
  | OBJECTION
  | GHOSTING
  | DEAD
deriving DecidableEq, Repr

/-- The two follow-up style variants of the A/B test. -/
inductive ABVariant
  | A
  | B
deriving DecidableEq, Repr

/-- The per-lead record fields read and written by the orchestration core
(server.js data model; see the lead mutations in checkGmailReplies,
processFollowUps and processSequenceSteps). -/
structure Lead where
  id : Nat
  ai_intent : Option Intent
  status : String
  follow_up_count : Nat
  email_count : Nat
  clarification_count : Nat
  initial_email_sent : Bool
  initial_email_sent_date : Option Nat
  last_email_sent_date : Option Nat
  auto_send_enabled : Option Bool
  follow_up_paused : Bool
  ai_paused_by_human : Bool
  enrolled_sequence_id : Option Nat
  sequence_completed : Option Bool
  sequence_paused : Bool
  sequence_current_step : Nat
  sequence_last_sent : Option Nat
deriving DecidableEq, Repr

/-- An AI draft record as pushed onto db.data.ai_drafts. Fields absent in the
source object literal (JavaScript undefined) are modelled as false. -/
structure AIDraft where
  lead_id : Nat
  draft_body : String
  ai_intent : Intent
  status : String
  clarification_needed : Bool
  needs_follow_up : Bool
deriving DecidableEq, Repr

/-- Result of the response generator: an email body and the clarification
flag. -/
structure GenResult where
  body : String
  clarification_needed : Bool
deriving DecidableEq, Repr

/-- Intent update applied to a lead on an inbound reply, from server.js lines
3434-3444 (checkEmailReplies) and the identical lines 3829-3839
(checkGmailReplies): INTERESTED is sticky against GHOSTING; otherwise the new
classification is stored, and the follow-up counter resets when a previously
stored (truthy) intent differs from the new one. Returns the new ai_intent and
the new follow_up_count. -/
def updateIntentOnReply (prevIntent : Option Intent) (newIntent : Intent)
    (followUpCount : Nat) : Option Intent × Nat :=
  let shouldUpdate := ¬ (prevIntent = some Intent.INTERESTED ∧ newIntent = Intent.GHOSTING)
  if shouldUpdate then
    let fuc := if prevIntent.isSome ∧ prevIntent ≠ some newIntent then 0 else followUpCount
    (some newIntent, fuc)
  else
    (prevIntent, followUpCount)

/-- The exact tag the generator prompt asks the model to append when the
question is not covered by the knowledge base. -/
def clarificationTag : String := "[NEEDS_CLARIFICATION]"

/-- JavaScript String.prototype.trim, on the whitespace characters Lean knows
(space, tab, carriage return, newline — the ones occurring in email bodies). -/
def jsTrim (s : String) : String :=
  ⟨((s.data.dropWhile Char.isWhitespace).reverse.dropWhile Char.isWhitespace).reverse⟩

/-- Character list of the clarification tag. -/
def tagChars : List Char := clarificationTag.data

/-- Whether the text contains the clarification tag (JavaScript
String.prototype.includes with the literal tag). -/
def containsTag : List Char → Bool
  | [] => false
  | c :: cs => tagChars.isPrefixOf (c :: cs) || containsTag cs

/-- Fuel-indexed removal of every occurrence of the clarification tag; each
step consumes at least one character, so fuel equal to the length of the text
is always sufficient. -/
def stripTagAux : Nat → List Char → List Char
  | 0, _ => []
  | _, [] => []
  | fuel + 1, c :: cs =>
    if tagChars.isPrefixOf (c :: cs) then stripTagAux fuel ((c :: cs).drop tagChars.length)
    else c :: stripTagAux fuel cs

/-- Removes every occurrence of the clarification tag (the JavaScript global
regex replace of the literal tag by the empty string). -/
def stripTag (cs : List Char) : List Char := stripTagAux cs.length cs

/-- Fixed clarification body returned when product info is missing for an
INTERESTED or OBJECTION reply (server.js 4511-4514). -/
def missingInfoBody (firstName : String) : String :=
  "Hi " ++ firstName ++ ",\n\nThank you for your question.\n\nI want to make sure I give you accurate information. Let me confirm the details and get back to you shortly.\n\nBest regards"

/-- Fixed holding body used by generateAIResponse when the model returns an
empty body (server.js 4610-4616). -/
def emptyFallbackBody (firstName : String) : String :=
  "Hi " ++ firstName ++ ",\n\nThank you for reaching out! That\x27s a great question.\n\nLet me look into this and get back to you with the right information shortly.\n\nBest regards"

/-- Deterministic skeleton of generateAIResponse (server.js 4496-4630) on the
path where the model call succeeds; rawText abstracts the raw model output.
Pre-check (4511-4514): missing product info on INTERESTED or OBJECTION yields a
fixed clarification reply before any model call. After the call (4604-4630):
the clarification tag is detected and stripped, a blank body is replaced by a
fixed holding message, and INTERESTED leads with product info never keep the
clarification flag. -/
def generateAIResponseCore (firstName : String) (intent : Intent)
    (hasProductInfo : Bool) (rawText : String) : GenResult :=
  if ¬ hasProductInfo ∧ (intent = Intent.INTERESTED ∨ intent = Intent.OBJECTION) then
    { body := missingInfoBody firstName, clarification_needed := true }
  else
    let trimmed := jsTrim rawText
    let tagged : Bool := containsTag trimmed.data
    let aiBody := jsTrim ⟨stripTag trimmed.data⟩
    if aiBody = "" then
      { body := emptyFallbackBody firstName
        clarification_needed := if intent = Intent.INTERESTED ∧ hasProductInfo then false else true }
    else
      { body := aiBody
        clarification_needed := if intent = Intent.INTERESTED ∧ hasProductInfo then false else tagged }

/-- Marks as resolved every pending draft of the lead that carries the
needs_follow_up or clarification_needed flag, from
resolveStaleActionRequiredDrafts (server.js 4486-4493). -/
def resolveStaleActionRequiredDrafts (leadId : Nat) (ds : List AIDraft) : List AIDraft :=
  ds.map (fun d =>
    if d.lead_id = leadId ∧ d.status = "pending" ∧ (d.needs_follow_up ∨ d.clarification_needed)
    then { d with status := "resolved" } else d)

/-- Outcome label of the reply-ingestion dispatch decision. -/
inductive ReplyAction
  | skipped
  | stopClarification
  | autoSent
  | autoSendFailed
  | manualDraft
deriving DecidableEq, Repr

/-- Result of the reply-ingestion dispatch: the branch taken, whether an email
was sent, the new clarification counter of the lead, and the updated draft
list. -/
structure ReplyDispatchResult where
  action : ReplyAction
  sent : Bool
  clarification_count : Nat
  drafts : List AIDraft
deriving DecidableEq, Repr

/-- Dispatch decision of the reply-ingestion handler for one inbound message,
from checkGmailReplies (server.js 3984-4135; checkEmailReplies 3518-3665 is the
same decision tree). Inputs: the auto-mode flag of the owning user, the
per-lead auto_send_enabled field, the current clarification counter, the
classified intent, the generated draft body (none when generation failed or a
duplicate pending draft exists), the clarification flag of the generator, and
whether the transport send succeeds. The decision never reads the intent: only
the draft record stores it. -/
def replyDispatch (isAutoMode : Bool) (autoSendEnabled : Option Bool)
    (clarificationCount : Nat) (intent : Intent) (leadId : Nat)
    (draft : Option String) (clarificationNeeded : Bool) (sendOk : Bool)
    (drafts : List AIDraft) : ReplyDispatchResult :=
  match draft with
  | none => ⟨ReplyAction.skipped, false, clarificationCount, drafts⟩
  | some d =>
    if jsTrim d = "" then
      ⟨ReplyAction.skipped, false, clarificationCount, drafts⟩
    else
      let shouldAutoSend := isAutoMode && !(autoSendEnabled = some false : Bool)
      let alreadySentHolding : Bool := decide (1 ≤ clarificationCount)
      if shouldAutoSend && clarificationNeeded && alreadySentHolding then
        ⟨ReplyAction.stopClarification, false, clarificationCount + 1,
          drafts ++ [⟨leadId, d, intent, "pending", true, true⟩]⟩
      else if shouldAutoSend then
        if sendOk then
          if clarificationNeeded then
            ⟨ReplyAction.autoSent, true, clarificationCount + 1,
              drafts ++ [⟨leadId, d, intent, "sent", true, true⟩]⟩
          else
            ⟨ReplyAction.autoSent, true, 0, resolveStaleActionRequiredDrafts leadId drafts⟩
        else
          ⟨ReplyAction.autoSendFailed, false, clarificationCount,
            drafts ++ [⟨leadId, d, intent, "pending", clarificationNeeded, false⟩]⟩
      else
        let ds1 := if clarificationNeeded then drafts else resolveStaleActionRequiredDrafts leadId drafts
        ⟨ReplyAction.manualDraft, false, clarificationCount,
          ds1 ++ [⟨leadId, d, intent, "pending", clarificationNeeded, false⟩]⟩

/-- What a follow-up rule prescribes once max_attempts is exhausted: a special
status or a reclassification into another intent (server.js 5287-5295 branches
on the strings review and closed_by_system, treating anything else as an intent
label). -/
inductive AfterMax
  | review
  | closed_by_system
  | reclassify (i : Intent)
deriving DecidableEq, Repr

/-- A per-intent follow-up rule: the delay (in days, or minutes when
delay_unit_minutes is set), the attempt cap, and the exhaustion action. -/
structure FollowUpRule where
  delay_days : Nat
  delay_unit_minutes : Bool
  max_attempts : Nat
  after_max : AfterMax
deriving DecidableEq, Repr

/-- The built-in defaultRules table of processFollowUps (server.js
5106-5112). -/
def defaultRules : Intent → FollowUpRule
  | Intent.INTERESTED => ⟨1, false, 5, AfterMax.review⟩
  | Intent.NOT_NOW => ⟨7, false, 3, AfterMax.reclassify Intent.GHOSTING⟩
  | Intent.OBJECTION => ⟨3, false, 4, AfterMax.review⟩
  | Intent.GHOSTING => ⟨5, false, 3, AfterMax.reclassify Intent.DEAD⟩
  | Intent.DEAD => ⟨30, false, 1, AfterMax.closed_by_system⟩

/-- The rule map actually used when the user has no per_intent_settings. -/
def defaultRulesMap : Intent → Option FollowUpRule := fun i => some (defaultRules i)

/-- Delay of a rule in milliseconds (server.js 5176-5178). -/
def ruleDelayMs (r : FollowUpRule) : Nat :=
  if r.delay_unit_minutes then r.delay_days * 60000 else r.delay_days * 86400000

/-- Lowercase status string written when an exhaustion rule reclassifies the
lead (server.js 5294 lowercases the intent label). -/
def intentStatusLower : Intent → String
  | Intent.INTERESTED => "interested"
  | Intent.NOT_NOW => "not_now"
  | Intent.OBJECTION => "objection"
  | Intent.GHOSTING => "ghosting"
  | Intent.DEAD => "dead"

/-- Exhaustion action of processFollowUps (server.js 5285-5299): set a special
status or reclassify the intent, and in every case reset follow_up_count to
zero. -/
def applyAfterMax (am : AfterMax) (l : Lead) : Lead :=
  let l1 :=
    match am with
    | AfterMax.review => { l with status := "review" }
    | AfterMax.closed_by_system => { l with status := "closed_by_system" }
    | AfterMax.reclassify i => { l with ai_intent := some i, status := intentStatusLower i }
  { l1 with follow_up_count := 0 }

/-- The lead has been contacted at least once (server.js 5122: skip when
neither initial_email_sent nor last_email_sent_date is truthy). -/
def contactedOnce (l : Lead) : Bool :=
  l.initial_email_sent || l.last_email_sent_date.isSome

/-- The lead is claimed by an active sequence: enrolled, sequence_completed
strictly equal to false, and not paused (server.js 5143). -/
def inActiveSequence (l : Lead) : Bool :=
  l.enrolled_sequence_id.isSome && decide (l.sequence_completed = some false)
    && !l.sequence_paused

/-- Eligibility gate of processFollowUps for one lead (server.js 5120-5145):
contacted at least once, not human-paused outside auto mode, status neither
customer nor closed_by_system, not follow_up_paused, and not claimed by an
active non-completed non-paused sequence. -/
def followUpEligible (autoMode : Bool) (l : Lead) : Bool :=
  contactedOnce l
    && !(l.ai_paused_by_human && !autoMode)
    && !(decide (l.status = "customer") || decide (l.status = "closed_by_system"))
    && !l.follow_up_paused
    && !(inActiveSequence l)

/-- Post-sequence cool-down gate of processFollowUps (server.js 5149-5161): a
lead whose sequence completed waits out the delay of the current intent rule,
measured from sequence_last_sent. -/
def sequenceWaitBlocks (rules : Intent → Option FollowUpRule) (now : Nat)
    (l : Lead) : Bool :=
  if l.enrolled_sequence_id.isSome ∧ l.sequence_completed = some true then
    match l.sequence_last_sent with
    | none => false
    | some t =>
      match rules (l.ai_intent.getD Intent.GHOSTING) with
      | none => false
      | some r => decide ((now : Int) - (t : Int) < (ruleDelayMs r : Int))
  else false

/-- Anchor date of the delay computation (server.js 5174:
last_email_sent_date falling back to initial_email_sent_date; when both are
absent the JavaScript comparison against NaN never fires). -/
def lastEmailMs (l : Lead) : Option Nat :=
  l.last_email_sent_date.orElse (fun _ => l.initial_email_sent_date)

/-- The auto-eligible intent set of processFollowUps (server.js 5226-5229):
INTERESTED, NOT_NOW and GHOSTING always; OBJECTION only when the user opted
objections into auto mode. -/
def intentAllowedInAuto (objOptIn : Bool) (i : Intent) : Bool :=
  decide (i = Intent.INTERESTED) || decide (i = Intent.NOT_NOW)
    || decide (i = Intent.GHOSTING) || (decide (i = Intent.OBJECTION) && objOptIn)

/-- Result of one cadence-scheduler pass over one lead: the updated lead, the
updated draft list, and the list of bodies sent (empty or a singleton). -/
structure FollowUpOutcome where
  lead : Lead
  drafts : List AIDraft
  sentEmails : List String
deriving DecidableEq, Repr

/-- One iteration of the per-lead loop of processFollowUps (server.js
5120-5301). gen abstracts the body produced by generateFollowUpEmail (the
JavaScript code does nothing when it is falsy, i.e. empty). On the due path:
if the user is in auto mode and the intent is auto-eligible the email is sent
and follow_up_count, email_count and last_email_sent_date are updated;
otherwise a pending draft is appended and the lead is untouched. Once
follow_up_count reaches max_attempts the exhaustion action runs instead. -/
def processFollowUpLead (autoMode objOptIn : Bool)
    (rules : Intent → Option FollowUpRule) (now : Nat) (gen : String)
    (l : Lead) (drafts : List AIDraft) : FollowUpOutcome :=
  if followUpEligible autoMode l = false then ⟨l, drafts, []⟩
  else if sequenceWaitBlocks rules now l then ⟨l, drafts, []⟩
  else
    let intent := l.ai_intent.getD Intent.GHOSTING
    match rules intent with
    | none => ⟨l, drafts, []⟩
    | some r =>
      match lastEmailMs l with
      | none => ⟨l, drafts, []⟩
      | some t =>
        if (ruleDelayMs r : Int) ≤ (now : Int) - (t : Int) then
          if l.follow_up_count < r.max_attempts then
            if gen = "" then ⟨l, drafts, []⟩
            else if autoMode && intentAllowedInAuto objOptIn intent then
              ⟨{ l with follow_up_count := l.follow_up_count + 1,
                        email_count := l.email_count + 1,
                        last_email_sent_date := some now }, drafts, [gen]⟩
            else
              ⟨l, drafts ++ [⟨l.id, gen, intent, "pending", false, false⟩], []⟩
          else
            ⟨applyAfterMax r.after_max l, drafts, []⟩
        else ⟨l, drafts, []⟩

/-- Style variant chosen by generateFollowUpEmail (server.js 5340-5346): even
lead ids take variant A, odd ids take variant B, unless a winner has already
been recorded for this user and intent. -/
def chooseVariant (leadId : Nat) (winner : Option ABVariant) : ABVariant :=
  let base := if leadId % 2 = 0 then ABVariant.A else ABVariant.B
  match winner with
  | some w => w
  | none => base

/-- Per user and intent A/B bookkeeping record (db.data.ab_results). -/
structure ABRecord where
  variant_a_sends : Nat
  variant_a_replies : Nat
  variant_b_sends : Nat
  variant_b_replies : Nat
  winner : Option ABVariant
deriving DecidableEq, Repr

/-- Reply rate of variant A, as an exact rational; the JavaScript float
division agrees with it on every comparison for send counts below 2^26. -/
def rateA (r : ABRecord) : ℚ := (r.variant_a_replies : ℚ) / (r.variant_a_sends : ℚ)

/-- Reply rate of variant B. -/
def rateB (r : ABRecord) : ℚ := (r.variant_b_replies : ℚ) / (r.variant_b_sends : ℚ)

/-- Winner decision of processFollowUps (server.js 5218-5223): once no winner
is recorded and both variants have at least 10 sends, the variant with the
higher reply rate is recorded as winner, variant A taken on ties. The source
compares variant_a_replies / variant_a_sends against
variant_b_replies / variant_b_sends; both send counts are positive inside this
branch, so the comparison is written here in the equivalent cross-multiplied
form (see rate_comparison_cross below). -/
def decideWinner (r : ABRecord) : ABRecord :=
  if r.winner = none ∧ 10 ≤ r.variant_a_sends ∧ 10 ≤ r.variant_b_sends then
    { r with
        winner :=
          some (if r.variant_b_replies * r.variant_a_sends ≤ r.variant_a_replies * r.variant_b_sends
                then ABVariant.A else ABVariant.B) }
  else r

/-- One step description of a sequence, as read by processSequenceSteps after
sorting by step_number: the delay and its unit. -/
structure SequenceStep where
  delay_days : Nat
  delay_unit_minutes : Bool
deriving DecidableEq, Repr

/-- Result of one sequence-scheduler pass over one enrolled lead. -/
structure SeqOutcome where
  lead : Lead
  sent : Bool
deriving DecidableEq, Repr

/-- Delay of one sequence step in milliseconds (server.js 5620-5625 computes
the elapsed time in the declared unit of the step; comparing milliseconds
against the delay converted to milliseconds is the same comparison). -/
def stepDelayMs (s : SequenceStep) : Nat :=
  if s.delay_unit_minutes then s.delay_days * 60000 else s.delay_days * 86400000

/-- One iteration of the per-lead loop of processSequenceSteps (server.js
5587-5697) for a lead that passed the enrollment filter (enrolled,
sequence_completed strictly false, not paused, sequence_last_sent present) with
an active sequence: a cursor at or beyond the step count is clamped to
completed without sending; otherwise, when the delay of the next step has
elapsed and the transport send succeeds, the cursor advances, the timestamps
update, and sending the final step marks the sequence completed in the same
update. A failed send leaves the lead at its cursor for retry. -/
def processSequenceLead (now : Nat) (steps : List SequenceStep) (sendOk : Bool)
    (l : Lead) : SeqOutcome :=
  if steps.length ≤ l.sequence_current_step then
    ⟨{ l with sequence_completed := some true }, false⟩
  else
    match l.sequence_last_sent with
    | none => ⟨l, false⟩
    | some ls =>
      let step := steps.getD l.sequence_current_step ⟨0, false⟩
      if (now : Int) - (ls : Int) < (stepDelayMs step : Int) then ⟨l, false⟩
      else if sendOk = false then ⟨l, false⟩
      else
        ⟨{ l with
            sequence_current_step := l.sequence_current_step + 1,
            sequence_last_sent := some now,
            last_email_sent_date := some now,
            sequence_completed :=
              if steps.length ≤ l.sequence_current_step + 1 then some true
              else l.sequence_completed }, true⟩

/-- Sample lead record used by the concrete counterexample and witness
theorems below: contacted once, no stored intent, nothing paused, not
enrolled. -/
def baseLead : Lead :=
  { id := 2, ai_intent := none, status := "contacted",
    follow_up_count := 0, email_count := 1, clarification_count := 0,
    initial_email_sent := true, initial_email_sent_date := some 0,
    last_email_sent_date := some 0, auto_send_enabled := none,
    follow_up_paused := false, ai_paused_by_human := false,
    enrolled_sequence_id := none, sequence_completed := none,
    sequence_paused := false, sequence_current_step := 0,
    sequence_last_sent := none }

/-- Sample lead in the terminal display status dead (its reply was classified
DEAD), otherwise idle. -/
def deadLead : Lead :=
  { baseLead with
      id := 1, ai_intent := some Intent.DEAD, status := "dead",
      email_count := 3 }

/-- Sample lead whose last reply was classified OBJECTION. -/
def objLead : Lead :=
  { baseLead with
      id := 3, ai_intent := some Intent.OBJECTION, status := "analyzed" }

/-- Sample lead enrolled in a sequence, at cursor 1, last step sent at time
zero. -/
def seqLead : Lead :=
  { baseLead with
      id := 4, enrolled_sequence_id := some 9,
      sequence_completed := some false, sequence_current_step := 1,
      sequence_last_sent := some 0 }

/-! Helper lemmas shared by the claim theorems. -/

/-- The cross-multiplied comparison used in decideWinner agrees with the
reply-rate comparison of the source whenever both send counts are positive. -/
theorem rate_comparison_cross (r : ABRecord)
    (ha : 0 < r.variant_a_sends) (hb : 0 < r.variant_b_sends) :
    (rateB r ≤ rateA r ↔
      r.variant_b_replies * r.variant_a_sends ≤ r.variant_a_replies * r.variant_b_sends) := by
  have ha' : (0 : ℚ) < (r.variant_a_sends : ℚ) := by exact_mod_cast ha
  have hb' : (0 : ℚ) < (r.variant_b_sends : ℚ) := by exact_mod_cast hb
  rw [rateA, rateB, div_le_div_iff₀ hb' ha']
  exact_mod_cast Iff.rfl

/-- An ineligible lead is returned untouched by the cadence scheduler, with no
draft and no send. -/
theorem processFollowUpLead_skip (m oI : Bool) (rules : Intent → Option FollowUpRule)
    (now : Nat) (gen : String) (l : Lead) (ds : List AIDraft)
    (h : followUpEligible m l = false) :
    processFollowUpLead m oI rules now gen l ds = ⟨l, ds, []⟩ := by
  simp [processFollowUpLead, h]

/-- On the manual-dispatch path (due follow-up, attempts left, generated body
nonempty, but auto mode off or intent not auto-eligible) the cadence scheduler
appends exactly one pending draft and leaves the lead untouched. -/
theorem processFollowUpLead_draft (m oI : Bool) (rules : Intent → Option FollowUpRule)
    (now : Nat) (gen : String) (l : Lead) (ds : List AIDraft) (r : FollowUpRule) (t : Nat)
    (h1 : followUpEligible m l = true)
    (h2 : sequenceWaitBlocks rules now l = false)
    (h3 : rules (l.ai_intent.getD Intent.GHOSTING) = some r)
    (h4 : lastEmailMs l = some t)
    (h5 : (ruleDelayMs r : Int) ≤ (now : Int) - (t : Int))
    (h6 : l.follow_up_count < r.max_attempts)
    (h7 : gen ≠ "")
    (h8 : (m && intentAllowedInAuto oI (l.ai_intent.getD Intent.GHOSTING)) = false) :
    processFollowUpLead m oI rules now gen l ds
      = ⟨l, ds ++ [⟨l.id, gen, l.ai_intent.getD Intent.GHOSTING, "pending", false, false⟩], []⟩ := by
  simp [processFollowUpLead, h1, h2, h3, h4, h5, h6, h7, h8]

/-- Exhaustive case split on the outcome of one cadence pass over one lead:
either the lead record is unchanged, or the auto-send path ran, or an
exhaustion action ran. -/
theorem processFollowUpLead_cases (m oI : Bool) (rules : Intent → Option FollowUpRule)
    (now : Nat) (gen : String) (l : Lead) (ds : List AIDraft) :
    (processFollowUpLead m oI rules now gen l ds).lead = l
    ∨ processFollowUpLead m oI rules now gen l ds
        = ⟨{ l with follow_up_count := l.follow_up_count + 1,
                    email_count := l.email_count + 1,
                    last_email_sent_date := some now }, ds, [gen]⟩
    ∨ ∃ r : FollowUpRule,
        processFollowUpLead m oI rules now gen l ds = ⟨applyAfterMax r.after_max l, ds, []⟩ := by
  by_cases h1 : followUpEligible m l = false
  · left
    simp [processFollowUpLead, h1]
  · replace h1 : followUpEligible m l = true := by
      revert h1
      cases followUpEligible m l <;> simp
    by_cases h2 : sequenceWaitBlocks rules now l = true
    · left
      simp [processFollowUpLead, h1, h2]
    · replace h2 : sequenceWaitBlocks rules now l = false := by
        revert h2
        cases sequenceWaitBlocks rules now l <;> simp
      cases h3 : rules (l.ai_intent.getD Intent.GHOSTING) with
      | none =>
        left
        simp [processFollowUpLead, h1, h2, h3]
      | some r =>
        cases h4 : lastEmailMs l with
        | none =>
          left
          simp [processFollowUpLead, h1, h2, h3, h4]
        | some t =>
          by_cases h5 : (ruleDelayMs r : Int) ≤ (now : Int) - (t : Int)
          · by_cases h6 : l.follow_up_count < r.max_attempts
            · by_cases h7 : gen = ""
              · left
                simp [processFollowUpLead, h1, h2, h3, h4, h5, h6, h7]
              · by_cases h8 : (m && intentAllowedInAuto oI (l.ai_intent.getD Intent.GHOSTING)) = true
                · right; left
                  simp [processFollowUpLead, h1, h2, h3, h4, h5, h6, h7, h8]
                · replace h8 : (m && intentAllowedInAuto oI (l.ai_intent.getD Intent.GHOSTING)) = false := by
                    revert h8
                    cases (m && intentAllowedInAuto oI (l.ai_intent.getD Intent.GHOSTING)) <;> simp
                  left
                  simp [processFollowUpLead, h1, h2, h3, h4, h5, h6, h7, h8]
            · right; right
              exact ⟨r, by simp [processFollowUpLead, h1, h2, h3, h4, h5, h6]⟩
          · left
            simp [processFollowUpLead, h1, h2, h3, h4, h5]

/-- Every exhaustion action zeroes the follow-up counter. -/
theorem applyAfterMax_follow_up_count (am : AfterMax) (l : Lead) :
    (applyAfterMax am l).follow_up_count = 0 := by
  cases am <;> rfl

/-- Exhaustive case split on the outcome of one sequence-scheduler pass over
one enrolled lead: clamp to completed, no-op, or send-and-advance. -/
theorem processSequenceLead_cases (now : Nat) (steps : List SequenceStep)
    (ok : Bool) (l : Lead) :
    (processSequenceLead now steps ok l
        = ⟨{ l with sequence_completed := some true }, false⟩
      ∧ steps.length ≤ l.sequence_current_step)
    ∨ ((processSequenceLead now steps ok l).lead = l
      ∧ (processSequenceLead now steps ok l).sent = false
      ∧ l.sequence_current_step < steps.length)
    ∨ (processSequenceLead now steps ok l
        = ⟨{ l with
              sequence_current_step := l.sequence_current_step + 1,
              sequence_last_sent := some now,
              last_email_sent_date := some now,
              sequence_completed :=
                if steps.length ≤ l.sequence_current_step + 1 then some true
                else l.sequence_completed }, true⟩
      ∧ l.sequence_current_step < steps.length) := by
  simp only [processSequenceLead]
  split
  next h1 =>
    left
    exact ⟨rfl, h1⟩
  next h1 =>
    have h1' : l.sequence_current_step < steps.length := Nat.lt_of_not_le h1
    split
    next =>
      right; left
      exact ⟨rfl, rfl, h1'⟩
    next ls heq =>
      split
      next h3 =>
        right; left
        exact ⟨rfl, rfl, h1'⟩
      next h3 =>
        split
        next h4 =>
          right; left
          exact ⟨rfl, rfl, h1'⟩
        next h4 =>
          right; right
          exact ⟨rfl, h1'⟩

/-! Claim theorems. -/

/-- C1 counterexample: with auto mode enabled, OBJECTION not opted into
auto-send (checkGmailReplies never reads auto_mode_include_objections at all),
the per-lead auto_send_enabled field undefined (hence not false), a
substantive generated draft and a working transport, the reply-ingestion
handler auto-sends the OBJECTION-classified reply and stores no pending
draft — contradicting the claim that such a reply always yields a pending
draft and is never sent automatically. -/
theorem objection_reply_autosent_example :
    (replyDispatch true none 0 Intent.OBJECTION 7 (some "We hear you.") false true []).sent = true
    ∧ (replyDispatch true none 0 Intent.OBJECTION 7 (some "We hear you.") false true []).drafts = [] := by
  decide

/-- C1 amended: the OBJECTION auto-send gate exists only in the cadence
scheduler (processFollowUps): a due OBJECTION follow-up of an auto-mode user
without the objection opt-in is queued as a pending draft and not sent. The
reply-ingestion handler applies no per-intent gate: it auto-sends a reply of
any intent, OBJECTION included, whenever the owner has auto mode, the per-lead
auto_send_enabled is not false, the draft is not blank, the clarification stop
does not apply, and the transport succeeds. -/
theorem objection_dispatch_paths :
    (∀ (rules : Intent → Option FollowUpRule) (now : Nat) (gen : String)
        (l : Lead) (ds : List AIDraft) (r : FollowUpRule) (t : Nat),
      l.ai_intent = some Intent.OBJECTION →
      followUpEligible true l = true →
      sequenceWaitBlocks rules now l = false →
      rules Intent.OBJECTION = some r →
      lastEmailMs l = some t →
      (ruleDelayMs r : Int) ≤ (now : Int) - (t : Int) →
      l.follow_up_count < r.max_attempts →
      gen ≠ "" →
      processFollowUpLead true false rules now gen l ds
        = ⟨l, ds ++ [⟨l.id, gen, Intent.OBJECTION, "pending", false, false⟩], []⟩)
    ∧ (∀ (ase : Option Bool) (cc : Nat) (i : Intent) (lid : Nat) (d : String)
        (cn : Bool) (ds : List AIDraft),
      ase ≠ some false → jsTrim d ≠ "" → (cn = false ∨ cc = 0) →
      (replyDispatch true ase cc i lid (some d) cn true ds).sent = true) := by
  constructor
  · intro rules now gen l ds r t hi h1 h2 h3 h4 h5 h6 h7
    have hg : l.ai_intent.getD Intent.GHOSTING = Intent.OBJECTION := by rw [hi]; rfl
    have h8 : (true && intentAllowedInAuto false (l.ai_intent.getD Intent.GHOSTING)) = false := by
      rw [hg]; rfl
    have := processFollowUpLead_draft true false rules now gen l ds r t h1 h2
      (by rw [hg]; exact h3) h4 h5 h6 h7 h8
    rw [this, hg]
  · intro ase cc i lid d cn ds hase hd hstop
    have hb : decide (ase = some false) = false := decide_eq_false hase
    rcases hstop with h | h
    · subst h
      simp [replyDispatch, hd, hb]
    · subst h
      cases cn <;> simp [replyDispatch, hd, hb]

/-- C1 witness: a concrete due OBJECTION lead of an auto-mode user without
the opt-in gets a pending draft from the cadence scheduler, while the reply
handler auto-sends a concrete OBJECTION reply. -/
theorem objection_dispatch_paths_witness :
    processFollowUpLead true false defaultRulesMap 259200000 "Quick follow-up" objLead []
      = ⟨objLead, [⟨3, "Quick follow-up", Intent.OBJECTION, "pending", false, false⟩], []⟩
    ∧ (replyDispatch true (some true) 0 Intent.OBJECTION 3 (some "We hear you.") false true []).sent
        = true :=
  ⟨objection_dispatch_paths.1 defaultRulesMap 259200000 "Quick follow-up" objLead []
      (defaultRules Intent.OBJECTION) 0 rfl (by decide) (by decide) rfl rfl
      (by decide) (by decide) (by decide),
    objection_dispatch_paths.2 (some true) 0 Intent.OBJECTION 3 "We hear you." false []
      (by decide) (by decide) (Or.inl rfl)⟩

/-- C2: a lead whose stored ai_intent is INTERESTED keeps intent INTERESTED
and its follow_up_count when a new reply is classified GHOSTING, while any
other classification (DEAD included) replaces the stored intent. Holds for
both reply handlers, which share this update block. -/
theorem interested_stickiness (f : Nat) (n : Intent) :
    updateIntentOnReply (some Intent.INTERESTED) Intent.GHOSTING f
      = (some Intent.INTERESTED, f)
    ∧ (n ≠ Intent.GHOSTING →
        (updateIntentOnReply (some Intent.INTERESTED) n f).1 = some n) := by
  constructor
  · simp [updateIntentOnReply]
  · intro hn
    cases n <;> simp_all [updateIntentOnReply]

/-- C2 witness at concrete inputs: GHOSTING does not downgrade, DEAD does
override. -/
theorem interested_stickiness_witness :
    updateIntentOnReply (some Intent.INTERESTED) Intent.GHOSTING 5
      = (some Intent.INTERESTED, 5)
    ∧ (updateIntentOnReply (some Intent.INTERESTED) Intent.DEAD 5).1 = some Intent.DEAD :=
  ⟨(interested_stickiness 5 Intent.DEAD).1,
    (interested_stickiness 5 Intent.DEAD).2 (by decide)⟩

/-- C3: in auto-send mode (auto mode on, per-lead auto_send_enabled not
false), when the generated candidate needs clarification and the
clarification counter is already at least 1, the reply handler sends nothing:
it increments clarification_count, appends the candidate as a pending draft
flagged needs_follow_up, and stops — whatever the transport would have
done. -/
theorem clarification_stop_rule (ase : Option Bool) (cc : Nat) (i : Intent)
    (lid : Nat) (d : String) (ok : Bool) (ds : List AIDraft)
    (hase : ase ≠ some false) (hd : jsTrim d ≠ "") (hcc : 1 ≤ cc) :
    replyDispatch true ase cc i lid (some d) true ok ds
      = ⟨ReplyAction.stopClarification, false, cc + 1,
          ds ++ [⟨lid, d, i, "pending", true, true⟩]⟩ := by
  have hb : decide (ase = some false) = false := decide_eq_false hase
  simp [replyDispatch, hd, hb, hcc]

/-- C3 witness at a concrete lead state. -/
theorem clarification_stop_rule_witness :
    replyDispatch true (some true) 2 Intent.NOT_NOW 4 (some "Let me check.") true true []
      = ⟨ReplyAction.stopClarification, false, 3,
          [⟨4, "Let me check.", Intent.NOT_NOW, "pending", true, true⟩]⟩ :=
  clarification_stop_rule (some true) 2 Intent.NOT_NOW 4 "Let me check." true []
    (by decide) (by decide) (by decide)

/-- C4 counterexample: a lead in the terminal display status dead passes the
eligibility gate of processFollowUps (the code only excludes the statuses
customer and closed_by_system) and, once the 30-day DEAD delay has elapsed, a
pending draft is created for it — contradicting the claim that leads in a
terminal status (dead, closed_by_system, converted) are always skipped
without any draft or state change. -/
theorem dead_lead_processed_example :
    followUpEligible false deadLead = true
    ∧ (processFollowUpLead false false defaultRulesMap 2592000000 "Final note" deadLead []).drafts
        = [⟨1, "Final note", Intent.DEAD, "pending", false, false⟩] := by
  decide

/-- C4 amended: the cadence scheduler processes a lead only if it has been
contacted at least once, its status is neither customer nor closed_by_system
(dead and converted leads remain eligible), it is not follow_up_paused, it is
not claimed by an active non-completed non-paused sequence, and — outside
auto mode — it is not ai_paused_by_human; every lead failing any of these
conditions is skipped with no send, draft, or state change. -/
theorem cadence_eligibility :
    (∀ (m : Bool) (l : Lead), followUpEligible m l = true →
      contactedOnce l = true ∧ l.status ≠ "customer" ∧ l.status ≠ "closed_by_system"
      ∧ l.follow_up_paused = false ∧ inActiveSequence l = false
      ∧ (l.ai_paused_by_human = true → m = true))
    ∧ (∀ (m oI : Bool) (rules : Intent → Option FollowUpRule) (now : Nat)
        (gen : String) (l : Lead) (ds : List AIDraft),
      followUpEligible m l = false →
      processFollowUpLead m oI rules now gen l ds = ⟨l, ds, []⟩) := by
  constructor
  · intro m l h
    simp only [followUpEligible, Bool.and_eq_true, Bool.not_eq_true',
      Bool.or_eq_false_iff, Bool.and_eq_false_iff, decide_eq_false_iff_not] at h
    obtain ⟨⟨⟨⟨hc, hp⟩, hs1, hs2⟩, hf⟩, ha⟩ := h
    refine ⟨hc, hs1, hs2, hf, ha, ?_⟩
    intro hh
    rcases hp with hp | hp
    · exact absurd hh (by simp [hp])
    · revert hp
      cases m <;> simp
  · intro m oI rules now gen l ds h
    exact processFollowUpLead_skip m oI rules now gen l ds h

/-- C4 witness: a paused lead is skipped unchanged, and a concrete eligible
lead satisfies every listed condition. -/
theorem cadence_eligibility_witness :
    (processFollowUpLead false false defaultRulesMap 0 "x"
        { baseLead with follow_up_paused := true } [] =
      ⟨{ baseLead with follow_up_paused := true }, [], []⟩)
    ∧ contactedOnce baseLead = true :=
  ⟨cadence_eligibility.2 false false defaultRulesMap 0 "x"
      { baseLead with follow_up_paused := true } [] (by decide),
    (cadence_eligibility.1 false baseLead (by decide)).1⟩

/-- C5: the sequence scheduler never lets the cursor pass the step count: a
cursor at or beyond the step count is clamped to completed without sending or
raising; a send advances the cursor by one from a position strictly below the
step count, and when the new cursor equals the step count the same update
marks the sequence completed. Hence a cursor within bounds stays within
bounds and equality implies completion. -/
theorem sequence_cursor_bound :
    (∀ (now : Nat) (steps : List SequenceStep) (ok : Bool) (l : Lead),
      steps.length ≤ l.sequence_current_step →
      processSequenceLead now steps ok l
        = ⟨{ l with sequence_completed := some true }, false⟩)
    ∧ (∀ (now : Nat) (steps : List SequenceStep) (ok : Bool) (l : Lead),
      (processSequenceLead now steps ok l).sent = true →
      (processSequenceLead now steps ok l).lead.sequence_current_step
          = l.sequence_current_step + 1
      ∧ l.sequence_current_step < steps.length
      ∧ ((processSequenceLead now steps ok l).lead.sequence_current_step = steps.length →
          (processSequenceLead now steps ok l).lead.sequence_completed = some true))
    ∧ (∀ (now : Nat) (steps : List SequenceStep) (ok : Bool) (l : Lead),
      l.sequence_current_step ≤ steps.length →
      (processSequenceLead now steps ok l).lead.sequence_current_step ≤ steps.length
      ∧ ((processSequenceLead now steps ok l).lead.sequence_current_step = steps.length →
          (processSequenceLead now steps ok l).lead.sequence_completed = some true)) := by
  refine ⟨?_, ?_, ?_⟩
  · intro now steps ok l h
    simp [processSequenceLead, h]
  · intro now steps ok l hsent
    rcases processSequenceLead_cases now steps ok l with ⟨he, _⟩ | ⟨_, hs, _⟩ | ⟨he, hlt⟩
    · rw [he] at hsent
      simp at hsent
    · rw [hs] at hsent
      exact absurd hsent (by decide)
    · rw [he]
      refine ⟨rfl, hlt, ?_⟩
      intro hc
      simp only at hc ⊢
      rw [if_pos (le_of_eq hc.symm)]
  · intro now steps ok l hle
    rcases processSequenceLead_cases now steps ok l with ⟨he, _⟩ | ⟨he, _, hlt⟩ | ⟨he, hlt⟩
    · rw [he]
      exact ⟨hle, fun _ => rfl⟩
    · rw [he]
      exact ⟨hle, fun hc => absurd hc (Nat.ne_of_lt hlt)⟩
    · rw [he]
      refine ⟨Nat.succ_le_of_lt hlt, ?_⟩
      intro hc
      simp only at hc ⊢
      rw [if_pos (le_of_eq hc.symm)]

/-- C5 witness: an out-of-bounds cursor gets clamped, and the spec scenario
lead (step 2 of 2, delay elapsed) stays within the cursor bound. -/
theorem sequence_cursor_bound_witness :
    processSequenceLead 5 [] true baseLead
      = ⟨{ baseLead with sequence_completed := some true }, false⟩
    ∧ (processSequenceLead 259200000 [⟨0, false⟩, ⟨3, false⟩] true
        seqLead).lead.sequence_current_step ≤ 2 :=
  ⟨sequence_cursor_bound.1 5 [] true baseLead (by decide),
    (sequence_cursor_bound.2.2 259200000 [⟨0, false⟩, ⟨3, false⟩] true seqLead (by decide)).1⟩

/-- C6 counterexample: a lead with no previously stored intent and
follow_up_count 1 receives its first classification: the stored intent
changes (from null to INTERESTED) but the counter stays 1 — the reset fires
only when a previous truthy intent differs from the new one. -/
theorem null_intent_no_reset_example :
    (updateIntentOnReply none Intent.INTERESTED 1).1 = some Intent.INTERESTED
    ∧ (updateIntentOnReply none Intent.INTERESTED 1).2 = 1 := by
  decide

/-- C6 amended: follow_up_count is 0 immediately after either the reply
handler stores a classification differing from a previously stored non-null
intent, or the exhaustion action of the cadence scheduler runs (which zeroes
the counter unconditionally, reclassifications and special statuses alike);
the first classification of a lead with no stored intent leaves the counter
untouched. -/
theorem follow_up_count_reset :
    (∀ (p n : Intent) (f : Nat),
      (updateIntentOnReply (some p) n f).1 ≠ some p →
      (updateIntentOnReply (some p) n f).2 = 0)
    ∧ (∀ (am : AfterMax) (l : Lead), (applyAfterMax am l).follow_up_count = 0) := by
  constructor
  · intro p n f h
    cases p <;> cases n <;> simp_all [updateIntentOnReply]
  · exact applyAfterMax_follow_up_count

/-- C6 witness at concrete inputs: a NOT_NOW to GHOSTING reclassification on
reply resets the counter, and an exhaustion action zeroes it. -/
theorem follow_up_count_reset_witness :
    (updateIntentOnReply (some Intent.NOT_NOW) Intent.GHOSTING 2).2 = 0
    ∧ (applyAfterMax (AfterMax.reclassify Intent.GHOSTING)
        { baseLead with follow_up_count := 3 }).follow_up_count = 0 :=
  ⟨follow_up_count_reset.1 Intent.NOT_NOW Intent.GHOSTING 2 (by decide),
    follow_up_count_reset.2 (AfterMax.reclassify Intent.GHOSTING)
      { baseLead with follow_up_count := 3 }⟩

/-- C7 counterexample: for an INTERESTED lead whose user has complete product
info, an empty model output is replaced by the fixed holding message but
clarification_needed is false, not true (server.js 4615 special-cases this
combination) — contradicting the claim that the result is always flagged as
needing clarification. -/
theorem empty_body_interested_example :
    (generateAIResponseCore "Ana" Intent.INTERESTED true "").body = emptyFallbackBody "Ana"
    ∧ (generateAIResponseCore "Ana" Intent.INTERESTED true "").clarification_needed = false := by
  decide

/-- C7 amended: whenever the model output is blank after trimming and tag
stripping, on any path that reaches the model call, the returned body is the
fixed non-empty holding message (so empty content is never silently sent),
and clarification_needed is true except for an INTERESTED lead with complete
product info, where it is false. -/
theorem empty_body_fallback (fn : String) (i : Intent) (hpi : Bool) (raw : String)
    (hpre : ¬ (¬ hpi = true ∧ (i = Intent.INTERESTED ∨ i = Intent.OBJECTION)))
    (hblank : jsTrim ⟨stripTag (jsTrim raw).data⟩ = "") :
    generateAIResponseCore fn i hpi raw
      = { body := emptyFallbackBody fn,
          clarification_needed :=
            if i = Intent.INTERESTED ∧ hpi = true then false else true }
    ∧ emptyFallbackBody fn ≠ "" := by
  constructor
  · simp only [generateAIResponseCore]
    rw [if_neg hpre, if_pos hblank]
  · intro h
    have hlen := congrArg String.length h
    simp only [emptyFallbackBody, String.length_append, String.length_empty] at hlen
    have h3 : ("Hi " : String).length = 3 := rfl
    omega

/-- C7 witness: a GHOSTING reply with a blank model output yields the holding
body flagged as needing clarification. -/
theorem empty_body_fallback_witness :
    generateAIResponseCore "Ana" Intent.GHOSTING false " "
      = { body := emptyFallbackBody "Ana", clarification_needed := true }
    ∧ emptyFallbackBody "Ana" ≠ "" :=
  ⟨((empty_body_fallback "Ana" Intent.GHOSTING false " " (by decide) (by decide)).1).trans
      (by decide),
    (empty_body_fallback "Ana" Intent.GHOSTING false " " (by decide) (by decide)).2⟩

/-- C8: the cadence style variant of a lead is deterministic in the lead id
(even ids variant A, odd ids variant B) unless a winner is already recorded
for the user and intent, in which case the winner is used; the winner is
decided exactly when both variants have at least 10 recorded sends, by
comparing reply rates, with variant A taken on ties (the comparison is
rateA at least rateB). -/
theorem ab_variant_selection :
    (∀ lid : Nat, chooseVariant lid none
        = if lid % 2 = 0 then ABVariant.A else ABVariant.B)
    ∧ (∀ (lid : Nat) (w : ABVariant), chooseVariant lid (some w) = w)
    ∧ (∀ r : ABRecord, r.winner ≠ none → decideWinner r = r)
    ∧ (∀ r : ABRecord, r.winner = none →
        ((decideWinner r).winner ≠ none
          ↔ 10 ≤ r.variant_a_sends ∧ 10 ≤ r.variant_b_sends))
    ∧ (∀ r : ABRecord, r.winner = none →
        10 ≤ r.variant_a_sends → 10 ≤ r.variant_b_sends →
        (decideWinner r).winner
          = some (if rateB r ≤ rateA r then ABVariant.A else ABVariant.B)) := by
  refine ⟨fun lid => rfl, fun lid w => rfl, ?_, ?_, ?_⟩
  · intro r h
    simp [decideWinner, h]
  · intro r h
    by_cases ha : 10 ≤ r.variant_a_sends
    · by_cases hb2 : 10 ≤ r.variant_b_sends
      · simp [decideWinner, h, ha, hb2]
      · simp [decideWinner, h, ha, hb2]
    · simp [decideWinner, h, ha]
  · intro r h ha hb2
    have ha' : 0 < r.variant_a_sends := lt_of_lt_of_le (by norm_num) ha
    have hb' : 0 < r.variant_b_sends := lt_of_lt_of_le (by norm_num) hb2
    simp only [decideWinner]
    rw [if_pos ⟨h, ha, hb2⟩]
    simp only [rate_comparison_cross r ha' hb']

/-- C8 witness: even id picks A, a recorded winner overrides, and a tie at 10
sends each is decided for variant A. -/
theorem ab_variant_selection_witness :
    chooseVariant 4 none = ABVariant.A
    ∧ chooseVariant 7 (some ABVariant.A) = ABVariant.A
    ∧ (decideWinner ⟨10, 3, 10, 3, none⟩).winner = some ABVariant.A :=
  ⟨(ab_variant_selection.1 4).trans (by decide),
    ab_variant_selection.2.1 7 ABVariant.A,
    (ab_variant_selection.2.2.2.2 ⟨10, 3, 10, 3, none⟩ rfl (by decide) (by decide)).trans
      (by norm_num [rateA, rateB])⟩

/-- C9: a due follow-up dispatched as a pending draft (auto mode off or
intent not auto-eligible) leaves follow_up_count, email_count and
last_email_sent_date unchanged and sends nothing, while appending exactly
one pending draft; follow_up_count becomes its successor only when an email
was actually sent. -/
theorem draft_path_frame :
    (∀ (m oI : Bool) (rules : Intent → Option FollowUpRule) (now : Nat)
        (gen : String) (l : Lead) (ds : List AIDraft) (r : FollowUpRule) (t : Nat),
      followUpEligible m l = true →
      sequenceWaitBlocks rules now l = false →
      rules (l.ai_intent.getD Intent.GHOSTING) = some r →
      lastEmailMs l = some t →
      (ruleDelayMs r : Int) ≤ (now : Int) - (t : Int) →
      l.follow_up_count < r.max_attempts →
      gen ≠ "" →
      (m && intentAllowedInAuto oI (l.ai_intent.getD Intent.GHOSTING)) = false →
      (processFollowUpLead m oI rules now gen l ds).lead.follow_up_count = l.follow_up_count
      ∧ (processFollowUpLead m oI rules now gen l ds).lead.email_count = l.email_count
      ∧ (processFollowUpLead m oI rules now gen l ds).lead.last_email_sent_date
          = l.last_email_sent_date
      ∧ (processFollowUpLead m oI rules now gen l ds).drafts
          = ds ++ [⟨l.id, gen, l.ai_intent.getD Intent.GHOSTING, "pending", false, false⟩]
      ∧ (processFollowUpLead m oI rules now gen l ds).sentEmails = [])
    ∧ (∀ (m oI : Bool) (rules : Intent → Option FollowUpRule) (now : Nat)
        (gen : String) (l : Lead) (ds : List AIDraft),
      (processFollowUpLead m oI rules now gen l ds).lead.follow_up_count
          = l.follow_up_count + 1 →
      (processFollowUpLead m oI rules now gen l ds).sentEmails = [gen]) := by
  constructor
  · intro m oI rules now gen l ds r t h1 h2 h3 h4 h5 h6 h7 h8
    rw [processFollowUpLead_draft m oI rules now gen l ds r t h1 h2 h3 h4 h5 h6 h7 h8]
    exact ⟨rfl, rfl, rfl, rfl, rfl⟩
  · intro m oI rules now gen l ds h
    rcases processFollowUpLead_cases m oI rules now gen l ds with he | he | ⟨r, he⟩
    · rw [he] at h
      omega
    · rw [he]
    · rw [he] at h
      rw [applyAfterMax_follow_up_count] at h
      omega

/-- C9 witness: the concrete due OBJECTION lead dispatched as a draft keeps
its counters and timestamps. -/
theorem draft_path_frame_witness :
    (processFollowUpLead true false defaultRulesMap 259200000 "Quick follow-up"
        objLead []).lead.follow_up_count = objLead.follow_up_count
    ∧ (processFollowUpLead true false defaultRulesMap 259200000 "Quick follow-up"
        objLead []).sentEmails = [] :=
  ⟨(draft_path_frame.1 true false defaultRulesMap 259200000 "Quick follow-up" objLead []
      (defaultRules Intent.OBJECTION) 0 (by decide) (by decide) rfl rfl (by decide)
      (by decide) (by decide) (by decide)).1,
    (draft_path_frame.1 true false defaultRulesMap 259200000 "Quick follow-up" objLead []
      (defaultRules Intent.OBJECTION) 0 (by decide) (by decide) rfl rfl (by decide)
      (by decide) (by decide) (by decide)).2.2.2.2⟩

/-- C10: cadence draft creation is not idempotent: under identical due and
manual-dispatch conditions, the first sweep appends one pending draft and
leaves the lead unchanged, so a second sweep appends a second identical
pending draft — there is no existing-draft check on this path. -/
theorem draft_path_not_idempotent
    (m oI : Bool) (rules : Intent → Option FollowUpRule) (now : Nat) (gen : String)
    (l : Lead) (ds : List AIDraft) (r : FollowUpRule) (t : Nat)
    (h1 : followUpEligible m l = true)
    (h2 : sequenceWaitBlocks rules now l = false)
    (h3 : rules (l.ai_intent.getD Intent.GHOSTING) = some r)
    (h4 : lastEmailMs l = some t)
    (h5 : (ruleDelayMs r : Int) ≤ (now : Int) - (t : Int))
    (h6 : l.follow_up_count < r.max_attempts)
    (h7 : gen ≠ "")
    (h8 : (m && intentAllowedInAuto oI (l.ai_intent.getD Intent.GHOSTING)) = false) :
    (processFollowUpLead m oI rules now gen l ds).lead = l
    ∧ (processFollowUpLead m oI rules now gen
        (processFollowUpLead m oI rules now gen l ds).lead
        (processFollowUpLead m oI rules now gen l ds).drafts).drafts
      = ds ++ [⟨l.id, gen, l.ai_intent.getD Intent.GHOSTING, "pending", false, false⟩,
               ⟨l.id, gen, l.ai_intent.getD Intent.GHOSTING, "pending", false, false⟩] := by
  have e1 := processFollowUpLead_draft m oI rules now gen l ds r t h1 h2 h3 h4 h5 h6 h7 h8
  have e2 := processFollowUpLead_draft m oI rules now gen l
    (ds ++ [({ lead_id := l.id, draft_body := gen,
               ai_intent := l.ai_intent.getD Intent.GHOSTING, status := "pending",
               clarification_needed := false, needs_follow_up := false } : AIDraft)]) r t
    h1 h2 h3 h4 h5 h6 h7 h8
  refine ⟨by rw [e1], ?_⟩
  rw [e1]
  dsimp only
  rw [e2]
  simp

/-- C10 witness: two sweeps over the same due lead in draft mode produce two
identical pending drafts. -/
theorem draft_path_not_idempotent_witness :
    (processFollowUpLead true false defaultRulesMap 259200000 "Quick follow-up"
        (processFollowUpLead true false defaultRulesMap 259200000 "Quick follow-up"
          objLead []).lead
        (processFollowUpLead true false defaultRulesMap 259200000 "Quick follow-up"
          objLead []).drafts).drafts
      = [⟨3, "Quick follow-up", Intent.OBJECTION, "pending", false, false⟩,
         ⟨3, "Quick follow-up", Intent.OBJECTION, "pending", false, false⟩] :=
  (draft_path_not_idempotent true false defaultRulesMap 259200000 "Quick follow-up" objLead []
    (defaultRules Intent.OBJECTION) 0 (by decide) (by decide) rfl rfl (by decide) (by decide)
    (by decide) (by decide)).2

end LeadRecovery
